import Mathlib

/-!
# Verification of the Narada Python SDK protocol core

Shallow embedding of the initialization handshake and request/response
lifecycle protocol of the Narada SDK:

* the remote dispatch protocol client (`dispatch_request` poll loop in
  `narada/window.py`),
* the extension action protocol client (`_run_extension_action`),
* the selector-race readiness waiter
  (`Narada._wait_for_browser_window_id_silently` in `narada/client.py`),
* the wire encodings of agentic-selector actions
  (`narada_core/actions/models.py`).

Network I/O is modelled by explicit environment parameters: the reply the
server gives to each HTTP round trip, and the wall-clock duration each round
trip consumes on the monotonic clock.
-/

namespace Narada

/-- A JSON-like value, used for the wire encodings built by the SDK. -/
inductive Json where
  | str (s : String)
  | int (n : Int)
  | bool (b : Bool)
  | null
  | obj (fields : List (String × Json))
  | arr (items : List Json)

/-! ## Agentic selector wire encoding (`narada_core/actions/models.py`) -/

/-- The runtime value passed as `property_name`; the dump reads its `.value`
attribute. -/
structure ElementProperty where
  value : String
deriving DecidableEq, Repr

/-- The `AgenticSelectorAction` tagged union of
`narada_core/actions/models.py`. -/
inductive AgenticSelectorActionT where
  | click
  | right_click
  | double_click
  | hover
  | fill (value : String)
  | select_option_by_index (value : Int)
  | select_option_by_value (value : String)
  | get_text
  | get_property (property_name : ElementProperty)
deriving DecidableEq, Repr

/-- Embedding of `_dump_agentic_selector_action`: the hand-specified wire encoding of each
selector action.  The `click` and `fill` cases return the action dict itself
(`cast(dict[str, Any], action)`). -/
def dump_agentic_selector_action : AgenticSelectorActionT → Json
  | .click => .obj [("type", .str "click")]
  | .right_click => .obj [("type", .str "rightClick")]
  | .double_click => .obj [("type", .str "doubleClick")]
  | .hover => .obj [("type", .str "hover")]
  | .fill v => .obj [("type", .str "fill"), ("value", .str v)]
  | .select_option_by_index v =>
      .obj [("type", .str "selectOptionByIndex"), ("value", .int v)]
  | .select_option_by_value v =>
      .obj [("type", .str "selectOptionByValue"), ("value", .str v)]
  | .get_text => .obj [("type", .str "getText")]
  | .get_property p =>
      .obj [("type", .str "getProperty"), ("propertyName", .str p.value)]

/-- The pydantic model `AgenticSelectorResponse`, whose single field `value` is a string or null. -/
structure AgenticSelectorResponseT where
  value : Option String
deriving DecidableEq, Repr

/-- Embedding of `AgenticSelectorResponse.model_validate`: the `value` field is required
and must be a string or null. -/
def agenticSelectorResponse_validate (j : Json) : Option AgenticSelectorResponseT :=
  match j with
  | .obj fields =>
    match List.lookup "value" fields with
    | some (.str s) => some ⟨some s⟩
    | some .null => some ⟨none⟩
    | _ => none
  | _ => none

/-- Embed an optional string as the JSON value the server would send for the
`value` field of an agentic-selector response. -/
def jsonOfOptionStr : Option String → Json
  | some s => .str s
  | none => .null

/-! ## The browser window handle (`narada/window.py`, `BaseBrowserWindow`) -/

/-- The state of a `BaseBrowserWindow`: the fields assigned in `__init__` and
never reassigned afterwards. -/
structure BaseBrowserWindowT where
  api_key : String
  base_url : String
  browser_window_id : String
deriving DecidableEq, Repr

/-- The `agent` argument of `dispatch_request`: either a member of the `Agent`
enum or a custom agent-name string. -/
inductive AgentArg where
  | generalist
  | operator
  | coreAgent
  | custom (s : String)
deriving DecidableEq, Repr

/-- The prompt text prepended for the selected agent:
`agent.prompt_prefix() if isinstance(agent, Agent) else f"{agent} "`. -/
def agentPromptPart : AgentArg → String
  | .generalist => ""
  | .operator => "/Operator "
  | .coreAgent => "/coreAgent "
  | .custom s => s ++ " "

/-- An output schema passed as `output_schema`: its JSON-schema dump
(`model_json_schema`) and its JSON validator (`model_validate_json`, which
either parses a value of the structured-output type `σ` or raises a
validation error). -/
structure SchemaT (σ : Type) where
  jsonSchema : Json
  validateJson : String → Except String σ

/-- The keyword arguments of `dispatch_request` other than the output schema
and the timeout-irrelevant transport inputs. -/
structure DispatchParams where
  prompt : String
  agent : AgentArg
  clear_chat : Option Bool
  generate_gif : Option Bool
  previous_request_id : Option String
  chat_history : Option Json
  additional_context : Option Json
  attachment : Option Json
  time_zone : String
  user_resource_credentials : Option Json
  variables_arg : Option Json
  callback_url : Option String
  callback_secret : Option String
  callback_headers : Option Json
  timeout : Nat

/-- A body field added only when the corresponding argument is not `None`. -/
def optField (key : String) (v : Option Json) : List (String × Json) :=
  match v with
  | some j => [(key, j)]
  | none => []

/-- The JSON body of the `POST /remote-dispatch` submission, built exactly as
`dispatch_request` builds `body`. -/
def dispatchRequestBody (w : BaseBrowserWindowT) (p : DispatchParams)
    (schemaJson : Option Json) : List (String × Json) :=
  [("prompt", .str (agentPromptPart p.agent ++ p.prompt)),
   ("browserWindowId", .str w.browser_window_id),
   ("timeZone", .str p.time_zone)]
  ++ optField "clearChat" (p.clear_chat.map Json.bool)
  ++ optField "saveScreenshots" (p.generate_gif.map Json.bool)
  ++ optField "responseFormat"
      (schemaJson.map fun sj =>
        .obj [("type", .str "jsonSchema"), ("jsonSchema", sj)])
  ++ optField "previousRequestId" (p.previous_request_id.map Json.str)
  ++ optField "chatHistory" p.chat_history
  ++ optField "additionalContext" p.additional_context
  ++ optField "attachment" p.attachment
  ++ optField "userResourceCredentials" p.user_resource_credentials
  ++ optField "variables" p.variables_arg
  ++ optField "callbackUrl" (p.callback_url.map Json.str)
  ++ optField "callbackSecret" (p.callback_secret.map Json.str)
  ++ optField "callbackHeaders" p.callback_headers

/-! ## The remote dispatch protocol client -/

/-- The `Usage` record in a dispatch response: `actions` and `credits`. -/
structure AgentUsageT where
  actions : Nat
  credits : Nat
deriving DecidableEq, Repr

/-- One `ActionTraceItem`: `{url, action}`. -/
structure ActionTraceItemT where
  url : String
  action : String
deriving DecidableEq, Repr

/-- The response content as returned by the server, before the client adds
the `structuredOutput` field. -/
structure RawContent where
  text : String
  actionTrace : Option (List ActionTraceItemT)
deriving DecidableEq, Repr

/-- The JSON of one `GET /remote-dispatch/responses/{requestId}` reply. -/
structure RawPollResponse where
  status : String
  response : Option RawContent
  createdAt : String
  completedAt : Option String
  usage : AgentUsageT
deriving DecidableEq, Repr

/-- Response content after `dispatch_request` populated the client-side
`structuredOutput` field. -/
structure Content (σ : Type) where
  text : String
  structuredOutput : Option σ
  actionTrace : Option (List ActionTraceItemT)
deriving DecidableEq, Repr

/-- The `Response` value returned by `dispatch_request`. -/
structure DispatchResponse (σ : Type) where
  requestId : String
  status : String
  response : Option (Content σ)
  createdAt : String
  completedAt : Option String
  usage : AgentUsageT
deriving DecidableEq, Repr

/-- The transport-level outcome of one polling GET round trip. -/
inductive PollReply where
  | ok (raw : RawPollResponse)
  | httpError (code : Nat)
  | transportTimeout
  | netFailure (e : String)
deriving DecidableEq, Repr

/-- One polling round trip as scheduled by the environment: how long the GET
took on the monotonic clock, and what it produced. -/
structure PollStep where
  duration : Nat
  reply : PollReply
deriving DecidableEq, Repr

/-- The transport-level outcome of the `POST /remote-dispatch` submission. -/
inductive SubmitReply where
  | ok (requestId : String)
  | httpError (code : Nat)
  | transportTimeout
  | netFailure (e : String)
deriving DecidableEq, Repr

/-- How a `dispatch_request` call ends: a returned response, a raised
`NaradaAgentTimeoutError` carrying the configured timeout, a propagated HTTP
status error, a propagated non-timeout transport error, or a propagated
pydantic validation error from `output_schema.model_validate_json`. -/
inductive DispatchResult (σ : Type) where
  | success (r : DispatchResponse σ)
  | agentTimeout (timeout : Nat)
  | httpStatusError (code : Nat)
  | transportFailure (e : String)
  | parseError (e : String)
deriving DecidableEq, Repr

/-- Processing of a non-pending poll response before `dispatch_request`
returns it: set `requestId`, and populate `structuredOutput` when the
response content is not null. -/
def pollFinish {σ : Type} (schema : Option (SchemaT σ)) (requestId : String)
    (raw : RawPollResponse) : DispatchResult σ :=
  match raw.response with
  | none =>
    .success ⟨requestId, raw.status, none, raw.createdAt, raw.completedAt, raw.usage⟩
  | some c =>
    match schema with
    | none =>
      .success ⟨requestId, raw.status, some ⟨c.text, none, c.actionTrace⟩,
        raw.createdAt, raw.completedAt, raw.usage⟩
    | some sch =>
      match sch.validateJson c.text with
      | .ok v =>
        .success ⟨requestId, raw.status, some ⟨c.text, some v, c.actionTrace⟩,
          raw.createdAt, raw.completedAt, raw.usage⟩
      | .error e => .parseError e

/-- The polling loop of `dispatch_request`: while the monotonic clock is
before the deadline, GET the status; a non-pending status returns the
processed response; a pending status sleeps 3 seconds and re-polls.  When the
loop condition fails, `NaradaAgentTimeoutError(timeout)` is raised; an
`asyncio.TimeoutError` from the GET is caught by the surrounding handler and
mapped to the same error; any other transport or HTTP error propagates.
Returns the result together with the number of GETs performed. -/
def pollLoop {σ : Type} (schema : Option (SchemaT σ)) (timeout : Nat)
    (requestId : String) (deadline : Nat) (env : Nat → PollStep) (k : Nat)
    (now : Nat) : DispatchResult σ × Nat :=
  if _h : now < deadline then
    match (env k).reply with
    | .transportTimeout => (.agentTimeout timeout, 1)
    | .netFailure e => (.transportFailure e, 1)
    | .httpError c => (.httpStatusError c, 1)
    | .ok raw =>
      if raw.status = "pending" then
        let rest := pollLoop schema timeout requestId deadline env (k + 1)
          (now + (env k).duration + 3)
        (rest.1, rest.2 + 1)
      else (pollFinish schema requestId raw, 1)
  else (.agentTimeout timeout, 0)
termination_by deadline - now
decreasing_by omega

/-- The whole try-block of `dispatch_request`: compute the deadline, submit,
then poll.  A submission-phase `asyncio.TimeoutError` is mapped to the agent
timeout error by the same handler; a submission-phase HTTP status error or
network failure propagates unchanged. -/
def dispatchRun {σ : Type} (schema : Option (SchemaT σ)) (timeout t0 : Nat)
    (submit : SubmitReply) (submitDur : Nat) (env : Nat → PollStep) :
    DispatchResult σ × Nat :=
  let deadline := t0 + timeout
  match submit with
  | .transportTimeout => (.agentTimeout timeout, 0)
  | .netFailure e => (.transportFailure e, 0)
  | .httpError c => (.httpStatusError c, 0)
  | .ok requestId =>
    pollLoop schema timeout requestId deadline env 0 (t0 + submitDur)

/-- What one `dispatch_request` call did: the window state after the call,
the submission body it POSTed, its result, and how many polling GETs it
performed. -/
structure DispatchCall (σ : Type) where
  window_after : BaseBrowserWindowT
  body : List (String × Json)
  result : DispatchResult σ
  pollCount : Nat

/-- Embedding of `BaseBrowserWindow.dispatch_request`, as a function of the window state,
the call arguments, the submission time `t0` on the monotonic clock, and the
server/transport environment.  The method assigns no attribute of `self`, so
the window state after the call is the state before it. -/
def dispatch_request {σ : Type} (w : BaseBrowserWindowT) (p : DispatchParams)
    (schema : Option (SchemaT σ)) (t0 : Nat) (submit : SubmitReply)
    (submitDur : Nat) (env : Nat → PollStep) : DispatchCall σ :=
  let run := dispatchRun schema p.timeout t0 submit submitDur env
  { window_after := w
    body := dispatchRequestBody w p (schema.map (·.jsonSchema))
    result := run.1
    pollCount := run.2 }

/-! ## The higher-level `agent` method -/

/-- The value returned by `BaseBrowserWindow.agent`. -/
structure AgentResponseT (σ : Type) where
  request_id : String
  status : String
  text : String
  structured_output : Option σ
  usage : AgentUsageT
  action_trace : Option (List ActionTraceItemT)
deriving DecidableEq, Repr

/-- How an `agent` call ends: a returned `AgentResponse`, a bare
`AssertionError` from `assert response_content is not None`, or a propagated
error from the underlying `dispatch_request`. -/
inductive AgentResult (σ : Type) where
  | ok (r : AgentResponseT σ)
  | assertionFailure
  | agentTimeout (timeout : Nat)
  | httpStatusError (code : Nat)
  | transportFailure (e : String)
  | parseError (e : String)
deriving DecidableEq, Repr

/-- The post-processing `agent` applies to the `dispatch_request` result. -/
def agentFromDispatch {σ : Type} : DispatchResult σ → AgentResult σ
  | .success r =>
    match r.response with
    | none => .assertionFailure
    | some c =>
      .ok ⟨r.requestId, r.status, c.text, c.structuredOutput, r.usage,
        c.actionTrace⟩
  | .agentTimeout t => .agentTimeout t
  | .httpStatusError c => .httpStatusError c
  | .transportFailure e => .transportFailure e
  | .parseError e => .parseError e

/-- The `DispatchParams` that `agent` passes to `dispatch_request`: its own
keyword arguments, with the arguments `agent` does not expose left at their
`None` defaults. -/
def agentParams (prompt : String) (ag : AgentArg)
    (clear_chat generate_gif : Option Bool) (attachment : Option Json)
    (time_zone : String) (vars : Option Json) (timeout : Nat) :
    DispatchParams :=
  { prompt := prompt
    agent := ag
    clear_chat := clear_chat
    generate_gif := generate_gif
    previous_request_id := none
    chat_history := none
    additional_context := none
    attachment := attachment
    time_zone := time_zone
    user_resource_credentials := none
    variables_arg := vars
    callback_url := none
    callback_secret := none
    callback_headers := none
    timeout := timeout }

/-- Embedding of `BaseBrowserWindow.agent`: delegates to `dispatch_request`, asserts the
response content is not `None`, and repackages it as an `AgentResponse`.
`agent` with `variables` set passes them through, so `vars` feeds
`variables_arg`. -/
def agentCall {σ : Type} (w : BaseBrowserWindowT) (prompt : String)
    (ag : AgentArg) (clear_chat generate_gif : Option Bool)
    (schema : Option (SchemaT σ)) (attachment : Option Json)
    (time_zone : String) (vars : Option Json) (timeout : Nat) (t0 : Nat)
    (submit : SubmitReply) (submitDur : Nat) (env : Nat → PollStep) :
    BaseBrowserWindowT × AgentResult σ :=
  let ps := agentParams prompt ag clear_chat generate_gif attachment
    time_zone vars timeout
  let call := dispatch_request w ps schema t0 submit submitDur env
  (call.window_after, agentFromDispatch call.result)

/-! ## The extension action protocol client (`_run_extension_action`) -/

/-- The HTTP response to the `POST /extension-actions` request: status code
and parsed JSON body. -/
structure ExtHttpReply where
  status : Nat
  body : Json

/-- The pydantic `ExtensionActionResponse`:
`{status: Literal["success","error"], error: str | None = None,
data: str | None = None}`. -/
structure ExtensionActionResponseT where
  status : String
  error : Option String
  data : Option String
deriving DecidableEq, Repr

/-- Validation of one optional `str | None` pydantic field with default
`None`: absent or null is `None`, a string is itself, anything else fails. -/
def strOrNullField (fields : List (String × Json)) (key : String) :
    Option (Option String) :=
  match List.lookup key fields with
  | none => some none
  | some (.str s) => some (some s)
  | some .null => some none
  | some _ => none

/-- Embedding of `ExtensionActionResponse.model_validate`. -/
def extensionActionResponse_validate (j : Json) :
    Option ExtensionActionResponseT :=
  match j with
  | .obj fields =>
    match List.lookup "status" fields with
    | some (.str s) =>
      if s = "success" ∨ s = "error" then
        match strOrNullField fields "error", strOrNullField fields "data" with
        | some e, some d => some ⟨s, e, d⟩
        | _, _ => none
      else none
    | _ => none
  | _ => none

/-- How a `_run_extension_action` call ends: a parsed payload (or `None` when
the caller passed no response model), a raised `NaradaTimeoutError` on HTTP
504, a raised `NaradaError` carrying the server-supplied message, a
propagated HTTP status error, a propagated response-validation error, a bare
`AssertionError` from `assert response.data is not None`, or a propagated
parse error from `response_model.model_validate_json`. -/
inductive ExtActionResult (ρ : Type) where
  | ok (r : Option ρ)
  | timeoutErr
  | naradaError (msg : Option String)
  | httpStatusError (code : Nat)
  | validationError
  | assertionFailure
  | parseError (e : String)
deriving DecidableEq, Repr

/-- The JSON body of the `POST /extension-actions` request, built exactly as
`_run_extension_action` builds `body`. -/
def extensionActionBody (w : BaseBrowserWindowT) (actionDump : Json)
    (timeout : Option Nat) : List (String × Json) :=
  [("action", actionDump), ("browserWindowId", .str w.browser_window_id)]
  ++ (match timeout with
      | some t => [("timeout", .int t)]
      | none => [])

/-- What one `_run_extension_action` call did: window state after the call,
the POSTed body, and the result. -/
structure ExtActionCall (ρ : Type) where
  window_after : BaseBrowserWindowT
  body : List (String × Json)
  result : ExtActionResult ρ

/-- Embedding of `BaseBrowserWindow._run_extension_action` as a function of the window
state, the serialized action (`request.model_dump()`), the optional
server-side soft timeout, the HTTP reply, and the optional response model
(its `model_validate_json`). -/
def run_extension_action {ρ : Type} (w : BaseBrowserWindowT)
    (actionDump : Json) (timeout : Option Nat) (reply : ExtHttpReply)
    (respModel : Option (String → Except String ρ)) : ExtActionCall ρ :=
  { window_after := w
    body := extensionActionBody w actionDump timeout
    result :=
      if reply.status = 504 then .timeoutErr
      else if 400 ≤ reply.status then .httpStatusError reply.status
      else
        match extensionActionResponse_validate reply.body with
        | none => .validationError
        | some r =>
          if r.status = "error" then .naradaError r.error
          else
            match respModel with
            | none => .ok none
            | some parse =>
              match r.data with
              | none => .assertionFailure
              | some d =>
                match parse d with
                | .ok v => .ok (some v)
                | .error e => .parseError e }

/-! ## The file upload helper (`upload_file`) -/

/-- The `_PresignedPost` model: `{url: str, fields: dict}`. -/
structure PresignedPostT where
  url : String
  fields : List (String × Json)

/-- Embedding of `BaseBrowserWindow.upload_file`: extracts the object key from the
presigned POST fields (`presigned_post.fields["key"]`, a `KeyError` when
absent, and the value must be the string object key) and returns
`File(key=object_key)`.  The method assigns no attribute of `self`. -/
def upload_file (w : BaseBrowserWindowT) (presigned : PresignedPostT) :
    BaseBrowserWindowT × Option Json :=
  (w, List.lookup "key" presigned.fields)

/-! ## The selector-race readiness waiter (`narada/client.py`) -/

/-- The five marker selectors raced by
`Narada._wait_for_browser_window_id_silently`, in the order the tasks are
created. -/
inductive MarkerIdx where
  | windowId
  | unsupportedBrowser
  | extensionMissing
  | extensionUnauthenticated
  | initializationErrorIndicator
deriving DecidableEq, Repr

/-- The marker element handle; for the window-id marker its text content
(`element.text_content()`, a string or `None`) is what matters. -/
structure Elem where
  textContent : Option String
deriving DecidableEq, Repr

/-- How one underlying `page.wait_for_selector(..., state="attached")` call
ends: the element became attached, the Playwright timeout fired, or the check
raised some other exception. -/
inductive SelectorWait where
  | attached (elem : Elem)
  | timedOut
  | raised (e : String)
deriving DecidableEq, Repr

/-- Embedding of `Narada._wait_for_selector_attached`: returns the element, catches only
`PlaywrightTimeoutError` (returning `None`), and lets any other exception
escape into the task. -/
def wait_for_selector_attached : SelectorWait → Except String (Option Elem)
  | .attached e => .ok (some e)
  | .timedOut => .ok none
  | .raised e => .error e

/-- What the waiter can do: return the browser-window-id string, raise one of
the five typed handshake errors, raise the `AssertionError` from
`assert_never()`, or re-raise an exception stored in a completed task when
`task.result()` is called. -/
inductive WaiterOutcome where
  | ready (id : String)
  | timeoutError (msg : String)
  | unsupportedBrowser
  | extensionMissing
  | extensionUnauthenticated
  | initializationError (msg : String)
  | assertionError
  | raised (e : String)
deriving DecidableEq, Repr

/-- The `for task in done:` loop of
`_wait_for_browser_window_id_silently`, applied to the completed tasks in
iteration order.  `task.result()` re-raises a stored exception; an indicator
task whose result is `None` matches no branch and the iteration continues;
when no branch fires for any completed task the loop falls through to
`assert_never()`. -/
def processDone : List (MarkerIdx × SelectorWait) → WaiterOutcome
  | [] => .assertionError
  | (idx, wres) :: rest =>
    match idx with
    | .windowId =>
      match wait_for_selector_attached wres with
      | .error e => .raised e
      | .ok none => .timeoutError "Timed out waiting for browser window ID"
      | .ok (some elem) =>
        match elem.textContent with
        | none => .initializationError "Browser window ID is empty"
        | some id => .ready id
    | .unsupportedBrowser =>
      match wait_for_selector_attached wres with
      | .error e => .raised e
      | .ok (some _) => .unsupportedBrowser
      | .ok none => processDone rest
    | .extensionMissing =>
      match wait_for_selector_attached wres with
      | .error e => .raised e
      | .ok (some _) => .extensionMissing
      | .ok none => processDone rest
    | .extensionUnauthenticated =>
      match wait_for_selector_attached wres with
      | .error e => .raised e
      | .ok (some _) => .extensionUnauthenticated
      | .ok none => processDone rest
    | .initializationErrorIndicator =>
      match wait_for_selector_attached wres with
      | .error e => .raised e
      | .ok (some _) => .initializationError "Initialization error"
      | .ok none => processDone rest

/-- Embedding of `Narada._wait_for_browser_window_id_silently` as a function of the set of
tasks completed when `asyncio.wait(..., return_when=FIRST_COMPLETED)`
returned, in the order the `for` loop iterates over them.  An empty `done`
set (the outer wait timed out with nothing completed) raises
`NaradaTimeoutError`. -/
def wait_for_browser_window_id_silently :
    List (MarkerIdx × SelectorWait) → WaiterOutcome
  | [] => .timeoutError "Timed out waiting for browser window ID"
  | t :: rest => processDone (t :: rest)

/-- A completed task that the `for` loop skips: an indicator (non-window-id)
racer whose own Playwright wait timed out, so its result is `None`. -/
def taskSkips : MarkerIdx × SelectorWait → Bool
  | (.windowId, _) => false
  | (_, .timedOut) => true
  | _ => false

/-! ## Derived notions used to state the claims -/

/-- A polling round trip whose GET succeeded with `status: "pending"`. -/
def pendingOk (s : PollStep) : Bool :=
  match s.reply with
  | .ok raw => raw.status == "pending"
  | _ => false

/-- Monotonic-clock time consumed by `n` consecutive pending polling rounds
starting at poll index `k`: each round is its GET duration plus the fixed
3-second sleep. -/
def elapsed (env : Nat → PollStep) : Nat → Nat → Nat
  | _, 0 => 0
  | k, n + 1 => (env k).duration + 3 + elapsed env (k + 1) n

/-- How one loop iteration ends when its reply is not a successful
`pending`. -/
def stepFinal {σ : Type} (schema : Option (SchemaT σ)) (timeout : Nat)
    (requestId : String) : PollReply → DispatchResult σ
  | .transportTimeout => .agentTimeout timeout
  | .netFailure e => .transportFailure e
  | .httpError c => .httpStatusError c
  | .ok raw => pollFinish schema requestId raw

/-! ## Concrete test scenarios -/

/-- A concrete window handle. -/
def w0 : BaseBrowserWindowT := ⟨"key", "https://api.narada.ai/fast/v2", "win-1"⟩

/-- Concrete `dispatch_request` arguments with a 100-second timeout. -/
def p0 : DispatchParams :=
  { prompt := "check the inbox"
    agent := .operator
    clear_chat := none
    generate_gif := none
    previous_request_id := none
    chat_history := none
    additional_context := none
    attachment := none
    time_zone := "America/Los_Angeles"
    user_resource_credentials := none
    variables_arg := none
    callback_url := none
    callback_secret := none
    callback_headers := none
    timeout := 100 }

/-- A poll reply body with `status: "pending"`. -/
def pendingRaw : RawPollResponse := ⟨"pending", none, "t0", none, ⟨0, 0⟩⟩

/-- A poll reply body with `status: "success"` and a response payload whose
text is the JSON document `42`. -/
def successRaw : RawPollResponse :=
  ⟨"success", some ⟨"42", some [⟨"https://x", "click"⟩]⟩, "t0", some "t1", ⟨3, 5⟩⟩

/-- A poll reply body with a terminal status and a null response payload, a
shape the `Response` type permits. -/
def nullRaw : RawPollResponse := ⟨"success", none, "t0", some "t1", ⟨1, 1⟩⟩

/-- A server that answers `pending` twice and then `success`; each GET takes
one second. -/
def env0 : Nat → PollStep := fun k =>
  if k < 2 then ⟨1, .ok pendingRaw⟩ else ⟨1, .ok successRaw⟩

/-- A server that answers `pending` forever. -/
def envPending : Nat → PollStep := fun _ => ⟨1, .ok pendingRaw⟩

/-- A server that answers `pending` once and then the connection times out at
the transport level. -/
def envTT : Nat → PollStep := fun k =>
  if k < 1 then ⟨1, .ok pendingRaw⟩ else ⟨1, .transportTimeout⟩

/-- A server whose first answer is terminal with a null response payload. -/
def envNull : Nat → PollStep := fun _ => ⟨0, .ok nullRaw⟩

/-- A concrete output schema whose structured-output type is `Nat`: its
validator maps the response text to its length. -/
def natSchema : SchemaT Nat :=
  ⟨.obj [("type", .str "integer")], fun s => .ok s.length⟩

/-! ## Poll-loop lemmas -/

/-- The loop exits immediately when the monotonic clock has passed the
deadline: `NaradaAgentTimeoutError(timeout)` is raised. -/
theorem pollLoop_stop {σ : Type} (schema : Option (SchemaT σ))
    (timeout : Nat) (requestId : String) (deadline : Nat)
    (env : Nat → PollStep) (k now : Nat) (h : ¬ now < deadline) :
    pollLoop schema timeout requestId deadline env k now =
      (.agentTimeout timeout, 0) := by
  rw [pollLoop]
  simp [h]

/-- One iteration whose reply is not a successful `pending` ends the loop. -/
theorem pollLoop_final {σ : Type} (schema : Option (SchemaT σ))
    (timeout : Nat) (requestId : String) (deadline : Nat)
    (env : Nat → PollStep) (k now : Nat) (h : now < deadline)
    (hnp : pendingOk (env k) = false) :
    pollLoop schema timeout requestId deadline env k now =
      (stepFinal schema timeout requestId (env k).reply, 1) := by
  rw [pollLoop]
  rcases hrep : (env k).reply with raw | code | _ | e <;>
    simp [h, hrep, stepFinal]
  by_cases hst : raw.status = "pending"
  · simp [pendingOk, hrep] at hnp
    simp_all
  · simp [hst]

/-- One iteration whose reply is a successful `pending` sleeps 3 seconds and
re-polls, adding one to the GET count. -/
theorem pollLoop_pending {σ : Type} (schema : Option (SchemaT σ))
    (timeout : Nat) (requestId : String) (deadline : Nat)
    (env : Nat → PollStep) (k now : Nat) (h : now < deadline)
    (hp : pendingOk (env k) = true) :
    pollLoop schema timeout requestId deadline env k now =
      ((pollLoop schema timeout requestId deadline env (k + 1)
          (now + (env k).duration + 3)).1,
       (pollLoop schema timeout requestId deadline env (k + 1)
          (now + (env k).duration + 3)).2 + 1) := by
  rw [pollLoop]
  rcases hrep : (env k).reply with raw | code | _ | e <;>
    simp [pendingOk, hrep] at hp
  simp [h, hrep, hp]

/-- Running the loop through `n` pending rounds followed by one round whose
reply is not a successful `pending`: the loop performs `n + 1` GETs and ends
with that reply's outcome, provided the clock is still before the deadline
when the final round starts. -/
theorem pollLoop_run {σ : Type} (schema : Option (SchemaT σ))
    (timeout : Nat) (requestId : String) (deadline : Nat)
    (env : Nat → PollStep) :
    ∀ n k now : Nat,
    (∀ i, i < n → pendingOk (env (k + i)) = true) →
    pendingOk (env (k + n)) = false →
    now + elapsed env k n < deadline →
    pollLoop schema timeout requestId deadline env k now =
      (stepFinal schema timeout requestId (env (k + n)).reply, n + 1) := by
  intro n
  induction n with
  | zero =>
    intro k now hpend hnp htime
    have hlt : now < deadline := by simpa [elapsed] using htime
    rw [pollLoop_final schema timeout requestId deadline env k now hlt
      (by simpa using hnp)]
    simp
  | succ n ih =>
    intro k now hpend hnp htime
    have h0 : pendingOk (env k) = true := by
      simpa using hpend 0 (Nat.succ_pos n)
    have helap : elapsed env k (n + 1) =
        (env k).duration + 3 + elapsed env (k + 1) n := rfl
    have hlt : now < deadline := by omega
    rw [pollLoop_pending schema timeout requestId deadline env k now hlt h0]
    have hrec := ih (k + 1) (now + (env k).duration + 3)
      (fun i hi => by
        have := hpend (i + 1) (by omega)
        simpa [show k + (i + 1) = k + 1 + i by omega] using this)
      (by simpa [show k + (n + 1) = k + 1 + n by omega] using hnp)
      (by omega)
    rw [hrec]
    simp [show k + 1 + n = k + (n + 1) by omega]

/-- When every poll round is a successful `pending`, the loop ends —
necessarily by deadline exhaustion — with the agent timeout error. -/
theorem pollLoop_pending_forever {σ : Type} (schema : Option (SchemaT σ))
    (timeout : Nat) (requestId : String) (deadline : Nat)
    (env : Nat → PollStep) (hall : ∀ i, pendingOk (env i) = true) :
    ∀ m k now : Nat, deadline - now ≤ m →
    (pollLoop schema timeout requestId deadline env k now).1 =
      .agentTimeout timeout := by
  intro m
  induction m with
  | zero =>
    intro k now hm
    rw [pollLoop_stop schema timeout requestId deadline env k now (by omega)]
  | succ m ih =>
    intro k now hm
    by_cases hlt : now < deadline
    · rw [pollLoop_pending schema timeout requestId deadline env k now hlt
        (hall k)]
      simpa using ih (k + 1) (now + (env k).duration + 3) (by omega)
    · rw [pollLoop_stop schema timeout requestId deadline env k now hlt]

/-- When `pollFinish` produces a returned response with a non-null payload,
the `structuredOutput` field was populated exactly as `dispatch_request`
populates it: `None` without an output schema, the parsed `text` with one. -/
theorem pollFinish_success_inv {σ : Type} (schema : Option (SchemaT σ))
    (requestId : String) (raw : RawPollResponse) (r : DispatchResponse σ)
    (c : Content σ) (h : pollFinish schema requestId raw = .success r)
    (hc : r.response = some c) :
    (schema = none → c.structuredOutput = none) ∧
    (∀ sch, schema = some sch →
      ∃ v, sch.validateJson c.text = .ok v ∧ c.structuredOutput = some v) := by
  unfold pollFinish at h
  rcases hresp : raw.response with _ | rc
  · rw [hresp] at h
    dsimp only at h
    cases h
    simp at hc
  · rw [hresp] at h
    dsimp only at h
    rcases hs : schema with _ | sch
    · rw [hs] at h
      dsimp only at h
      cases h
      rw [Option.some_inj] at hc
      subst hc
      exact ⟨fun _ => rfl, fun sch hsch => by cases hsch⟩
    · rw [hs] at h
      dsimp only at h
      rcases hv : sch.validateJson rc.text with v | e <;> rw [hv] at h <;>
        dsimp only at h
      case error => cases h
      case ok =>
        cases h
        rw [Option.some_inj] at hc
        subst hc
        refine ⟨fun hn => Option.noConfusion hn, fun sch2 hsch => ?_⟩
        rw [Option.some_inj] at hsch
        subst hsch
        exact ⟨_, hv, rfl⟩

/-- Every returned response of the polling loop with a non-null payload has
its `structuredOutput` field populated per the output schema. -/
theorem pollLoop_success_inv {σ : Type} (schema : Option (SchemaT σ))
    (timeout : Nat) (requestId : String) (deadline : Nat)
    (env : Nat → PollStep) :
    ∀ (m k now : Nat) (r : DispatchResponse σ) (c : Content σ),
    deadline - now ≤ m →
    (pollLoop schema timeout requestId deadline env k now).1 = .success r →
    r.response = some c →
    (schema = none → c.structuredOutput = none) ∧
    (∀ sch, schema = some sch →
      ∃ v, sch.validateJson c.text = .ok v ∧ c.structuredOutput = some v) := by
  intro m
  induction m with
  | zero =>
    intro k now r c hm h hc
    rw [pollLoop_stop schema timeout requestId deadline env k now (by omega)]
      at h
    cases h
  | succ m ih =>
    intro k now r c hm h hc
    by_cases hlt : now < deadline
    · by_cases hp : pendingOk (env k) = true
      · rw [pollLoop_pending schema timeout requestId deadline env k now hlt
          hp] at h
        exact ih (k + 1) (now + (env k).duration + 3) r c (by omega)
          (by simpa using h) hc
      · rw [pollLoop_final schema timeout requestId deadline env k now hlt
          (by simpa using hp)] at h
        rcases hrep : (env k).reply with raw | code | _ | e <;>
          rw [hrep] at h <;> simp [stepFinal] at h
        · exact pollFinish_success_inv schema requestId raw r c h hc
    · rw [pollLoop_stop schema timeout requestId deadline env k now hlt] at h
      cases h

/-! ## Waiter lemmas -/

/-- The `for` loop passes over a completed indicator task whose result is
`None` and continues with the remaining completed tasks. -/
theorem processDone_skip (t : MarkerIdx × SelectorWait)
    (rest : List (MarkerIdx × SelectorWait)) (h : taskSkips t = true) :
    processDone (t :: rest) = processDone rest := by
  obtain ⟨idx, wres⟩ := t
  cases idx <;> cases wres <;> simp [taskSkips] at h <;>
    simp [processDone, wait_for_selector_attached]

/-! ## The claims -/

/-- C1: when the submission POST succeeds with a `request_id` and the server
answers `pending` for the first `n` polls and a non-pending status at poll
`n`, with the monotonic clock still before the deadline (submission time
plus the caller-supplied timeout) at each poll — each round being the GET
duration plus the fixed 3-second sleep — `dispatch_request` performs exactly
`n + 1` polls of the status-by-id endpoint and returns the first polled
response whose status is not `"pending"`; in particular a server answering
`pending` twice then `success` is polled exactly three times and the success
response is returned. -/
theorem C1_dispatch_polls_until_first_terminal {σ : Type}
    (w : BaseBrowserWindowT) (p : DispatchParams)
    (schema : Option (SchemaT σ)) (t0 submitDur : Nat) (rid : String)
    (env : Nat → PollStep) (n : Nat) (raw : RawPollResponse)
    (hpend : ∀ i, i < n → pendingOk (env i) = true)
    (hrep : (env n).reply = .ok raw)
    (hterm : raw.status ≠ "pending")
    (htime : t0 + submitDur + elapsed env 0 n < t0 + p.timeout) :
    (dispatch_request w p schema t0 (.ok rid) submitDur env).result =
      pollFinish schema rid raw ∧
    (dispatch_request w p schema t0 (.ok rid) submitDur env).pollCount =
      n + 1 := by
  have hnp : pendingOk (env (0 + n)) = false := by
    simp [pendingOk, Nat.zero_add, hrep, hterm]
  have hrun := pollLoop_run schema p.timeout rid (t0 + p.timeout) env n 0
    (t0 + submitDur) (fun i hi => by simpa using hpend i hi) hnp htime
  rw [Nat.zero_add, hrep] at hrun
  exact ⟨by simp [dispatch_request, dispatchRun, hrun, stepFinal],
    by simp [dispatch_request, dispatchRun, hrun]⟩

/-- Instance of C1: the server answers `pending` twice then `success`, and
the client polls exactly three times and returns the success response. -/
theorem C1_witness :
    (dispatch_request w0 p0 (none : Option (SchemaT Unit)) 0 (.ok "r1") 1
      env0).result = pollFinish none "r1" successRaw ∧
    (dispatch_request w0 p0 (none : Option (SchemaT Unit)) 0 (.ok "r1") 1
      env0).pollCount = 3 := by
  exact C1_dispatch_polls_until_first_terminal w0 p0 none 0 1 "r1" env0 2
    successRaw (by decide) (by decide) (by decide) (by decide)

/-- C2: (1) if after a successful submission every polled status is still
`"pending"`, the deadline elapses and `dispatch_request` raises the
agent-timeout error carrying the configured timeout value; (2) a
transport-level timeout raised during the polling phase is mapped onto that
same agent-timeout error instead of being propagated raw; (3) a network
failure before a `request_id` is obtained propagates unchanged. -/
theorem C2_agent_timeout_signalling {σ : Type} (w : BaseBrowserWindowT)
    (p : DispatchParams) (schema : Option (SchemaT σ)) (t0 submitDur : Nat)
    (env : Nat → PollStep) :
    (∀ rid, (∀ i, pendingOk (env i) = true) →
      (dispatch_request w p schema t0 (.ok rid) submitDur env).result =
        .agentTimeout p.timeout) ∧
    (∀ rid n, (∀ i, i < n → pendingOk (env i) = true) →
      (env n).reply = .transportTimeout →
      t0 + submitDur + elapsed env 0 n < t0 + p.timeout →
      (dispatch_request w p schema t0 (.ok rid) submitDur env).result =
        .agentTimeout p.timeout) ∧
    (∀ e, (dispatch_request w p schema t0 (.netFailure e) submitDur
        env).result = .transportFailure e) := by
  refine ⟨fun rid hall => ?_, fun rid n hpend hrep htime => ?_, fun e => rfl⟩
  · have := pollLoop_pending_forever schema p.timeout rid (t0 + p.timeout)
      env hall ((t0 + p.timeout) - (t0 + submitDur)) 0 (t0 + submitDur)
      (le_refl _)
    simpa [dispatch_request, dispatchRun] using this
  · have hnp : pendingOk (env (0 + n)) = false := by
      simp [pendingOk, Nat.zero_add, hrep]
    have hrun := pollLoop_run schema p.timeout rid (t0 + p.timeout) env n 0
      (t0 + submitDur) (fun i hi => by simpa using hpend i hi) hnp htime
    rw [Nat.zero_add, hrep] at hrun
    simp [dispatch_request, dispatchRun, hrun, stepFinal]

/-- Instance of C2: an all-pending server leads to the agent-timeout error
with the configured 100-second timeout; a transport timeout at the second
poll is mapped to the same error; a network failure at submission propagates
unchanged. -/
theorem C2_witness :
    (dispatch_request w0 p0 (none : Option (SchemaT Unit)) 0 (.ok "r1") 1
      envPending).result = .agentTimeout 100 ∧
    (dispatch_request w0 p0 (none : Option (SchemaT Unit)) 0 (.ok "r1") 1
      envTT).result = .agentTimeout 100 ∧
    (dispatch_request w0 p0 (none : Option (SchemaT Unit)) 0
      (.netFailure "connection refused") 1 env0).result =
      .transportFailure "connection refused" := by
  refine ⟨?_, ?_, ?_⟩
  · exact (C2_agent_timeout_signalling w0 p0 none 0 1 envPending).1 "r1"
      fun _ => rfl
  · exact (C2_agent_timeout_signalling w0 p0 none 0 1 envTT).2.1 "r1" 1
      (by decide) (by decide) (by decide)
  · exact (C2_agent_timeout_signalling w0 p0 none 0 1 env0).2.2
      "connection refused"

/-- C5: every `dispatch_request` call that returns a response with a
non-null payload has its structured-output field populated per the output
schema: the parse of the response `text` against the schema when one was
supplied, and `None` when none was. -/
theorem C5_structured_output_population {σ : Type} (w : BaseBrowserWindowT)
    (p : DispatchParams) (schema : Option (SchemaT σ)) (t0 : Nat)
    (submit : SubmitReply) (submitDur : Nat) (env : Nat → PollStep)
    (r : DispatchResponse σ) (c : Content σ)
    (hres : (dispatch_request w p schema t0 submit submitDur env).result =
      .success r)
    (hc : r.response = some c) :
    (schema = none → c.structuredOutput = none) ∧
    (∀ sch, schema = some sch →
      ∃ v, sch.validateJson c.text = .ok v ∧ c.structuredOutput = some v) := by
  rcases submit with rid | code | _ | e
  · exact pollLoop_success_inv schema p.timeout rid (t0 + p.timeout) env
      ((t0 + p.timeout) - (t0 + submitDur)) 0 (t0 + submitDur) r c
      (le_refl _) (by simpa [dispatch_request, dispatchRun] using hres) hc
  · cases hres
  · cases hres
  · cases hres

/-- Instance of C5: with the `Nat` schema supplied and a terminal response
whose text is `"42"`, the structured output is the parsed value `42`. -/
theorem C5_witness :
    ((some natSchema : Option (SchemaT Nat)) = none →
      (⟨"42", some 2, some [⟨"https://x", "click"⟩]⟩ :
        Content Nat).structuredOutput = none) ∧
    (∀ sch, (some natSchema : Option (SchemaT Nat)) = some sch →
      ∃ v, sch.validateJson "42" = .ok v ∧
        ((⟨"42", some 2, some [⟨"https://x", "click"⟩]⟩ :
          Content Nat).structuredOutput = some v)) := by
  have hrun := pollLoop_run (some natSchema) p0.timeout "r1" (0 + p0.timeout)
    env0 2 0 (0 + 1) (by decide) (by decide) (by decide)
  have hres : (dispatch_request w0 p0 (some natSchema) 0 (.ok "r1") 1
      env0).result = .success ⟨"r1", "success",
        some ⟨"42", some 2, some [⟨"https://x", "click"⟩]⟩, "t0", some "t1",
        ⟨3, 5⟩⟩ := by
    show (pollLoop (some natSchema) p0.timeout "r1" (0 + p0.timeout) env0 0
      (0 + 1)).1 = _
    rw [hrun]
    decide
  exact C5_structured_output_population w0 p0 (some natSchema) 0 (.ok "r1")
    1 env0 _ _ hres rfl

/-- C10: when the underlying dispatch reaches a terminal status whose
response payload is null — a shape the response type permits — the
high-level `agent` method fails with a bare assertion error (not an
`AgentResponse` and not a typed Narada error), and `agent` returns normally
only when the terminal response payload is non-null. -/
theorem C10_agent_asserts_on_null_payload {σ : Type} (w : BaseBrowserWindowT)
    (prompt : String) (ag : AgentArg) (cc gg : Option Bool)
    (schema : Option (SchemaT σ)) (att : Option Json) (tz : String)
    (vars : Option Json) (tmo t0 : Nat) (submit : SubmitReply)
    (submitDur : Nat) (env : Nat → PollStep) :
    (∀ r, (dispatch_request w
        (agentParams prompt ag cc gg att tz vars tmo) schema t0 submit
        submitDur env).result = .success r →
      r.response = none →
      (agentCall w prompt ag cc gg schema att tz vars tmo t0 submit
        submitDur env).2 = .assertionFailure) ∧
    (∀ a, (agentCall w prompt ag cc gg schema att tz vars tmo t0 submit
        submitDur env).2 = .ok a →
      ∃ r c, (dispatch_request w
          (agentParams prompt ag cc gg att tz vars tmo) schema t0 submit
          submitDur env).result = .success r ∧ r.response = some c) := by
  constructor
  · intro r hres hnull
    show agentFromDispatch (dispatch_request w
      (agentParams prompt ag cc gg att tz vars tmo) schema t0 submit
      submitDur env).result = _
    rw [hres]
    simp [agentFromDispatch, hnull]
  · intro a ha
    replace ha : agentFromDispatch (dispatch_request w
        (agentParams prompt ag cc gg att tz vars tmo) schema t0 submit
        submitDur env).result = .ok a := ha
    rcases hres : (dispatch_request w
        (agentParams prompt ag cc gg att tz vars tmo) schema t0 submit
        submitDur env).result with r | t | code | e | e <;>
      rw [hres] at ha <;> simp [agentFromDispatch] at ha
    rcases hc : r.response with _ | c
    · rw [hc] at ha
      simp at ha
    · exact ⟨r, c, rfl, hc⟩

/-- Instance of C10: a server whose first poll answer is terminal with a
null response payload makes `agent` end in the bare assertion failure. -/
theorem C10_witness :
    (agentCall w0 "check the inbox" .operator none none
      (none : Option (SchemaT Unit)) none "America/Los_Angeles" none 100 0
      (.ok "r1") 1 envNull).2 = .assertionFailure := by
  have hrun := pollLoop_run (none : Option (SchemaT Unit)) 100 "r1" (0 + 100)
    envNull 0 0 (0 + 1) (by decide) (by decide) (by decide)
  have hres : (dispatch_request w0 (agentParams "check the inbox" .operator
      none none none "America/Los_Angeles" none 100)
      (none : Option (SchemaT Unit)) 0 (.ok "r1") 1 envNull).result =
      .success ⟨"r1", "success", none, "t0", some "t1", ⟨1, 1⟩⟩ := by
    show (pollLoop (none : Option (SchemaT Unit)) 100 "r1" (0 + 100) envNull
      0 (0 + 1)).1 = _
    rw [hrun]
    decide
  exact (C10_agent_asserts_on_null_payload w0 "check the inbox" .operator
    none none none none "America/Los_Angeles" none 100 0 (.ok "r1") 1
    envNull).1 _ hres rfl

/-- C4: for `_run_extension_action`, an HTTP gateway-timeout status (504) on
the POST raises the timeout error distinct from the generic application
error; a successful HTTP response whose body has `status == "error"` raises
the application error carrying the server-supplied error string; and a body
with `status == "success"` yields `None` when no response model was given,
and otherwise the `data` payload parsed against the expected response
shape. -/
theorem C4_extension_action_outcomes {ρ : Type} (w : BaseBrowserWindowT)
    (actionDump : Json) (timeout : Option Nat) :
    (∀ (body : Json) (respModel : Option (String → Except String ρ)),
      (run_extension_action w actionDump timeout ⟨504, body⟩
        respModel).result = .timeoutErr) ∧
    (∀ (reply : ExtHttpReply) (r : ExtensionActionResponseT)
        (respModel : Option (String → Except String ρ)),
      reply.status < 400 →
      extensionActionResponse_validate reply.body = some r →
      r.status = "error" →
      (run_extension_action w actionDump timeout reply respModel).result =
        .naradaError r.error) ∧
    (∀ (reply : ExtHttpReply) (r : ExtensionActionResponseT),
      reply.status < 400 →
      extensionActionResponse_validate reply.body = some r →
      r.status = "success" →
      (run_extension_action w actionDump timeout reply
        (none : Option (String → Except String ρ))).result = .ok none) ∧
    (∀ (reply : ExtHttpReply) (r : ExtensionActionResponseT)
        (parse : String → Except String ρ) (d : String) (v : ρ),
      reply.status < 400 →
      extensionActionResponse_validate reply.body = some r →
      r.status = "success" →
      r.data = some d →
      parse d = .ok v →
      (run_extension_action w actionDump timeout reply
        (some parse)).result = .ok (some v)) := by
  refine ⟨fun body respModel => by simp [run_extension_action],
    fun reply r respModel hlt hval herr => ?_,
    fun reply r hlt hval hsucc => ?_,
    fun reply r parse d v hlt hval hsucc hd hparse => ?_⟩
  · have h504 : reply.status ≠ 504 := by omega
    have h400 : ¬ 400 ≤ reply.status := by omega
    simp [run_extension_action, h504, h400, hval, herr]
  · have h504 : reply.status ≠ 504 := by omega
    have h400 : ¬ 400 ≤ reply.status := by omega
    have herr : r.status ≠ "error" := by rw [hsucc]; decide
    simp [run_extension_action, h504, h400, hval, herr]
  · have h504 : reply.status ≠ 504 := by omega
    have h400 : ¬ 400 ≤ reply.status := by omega
    have herr : r.status ≠ "error" := by rw [hsucc]; decide
    simp [run_extension_action, h504, h400, hval, herr, hd, hparse]

/-- Instance of C4: a 504 reply raises the timeout error; an error body with
message `"X"` raises the application error carrying `"X"`; a success body
with no response model yields `None`; a success body with `data` `"abc"`
parsed by a length parser yields `3`. -/
theorem C4_witness :
    (run_extension_action w0 (.obj [("name", .str "go_to_url")]) none
      ⟨504, .null⟩ (none : Option (String → Except String Nat))).result =
      .timeoutErr ∧
    (run_extension_action w0 (.obj [("name", .str "go_to_url")]) none
      ⟨200, .obj [("status", .str "error"), ("error", .str "X")]⟩
      (none : Option (String → Except String Nat))).result =
      .naradaError (some "X") ∧
    (run_extension_action w0 (.obj [("name", .str "go_to_url")]) none
      ⟨200, .obj [("status", .str "success")]⟩
      (none : Option (String → Except String Nat))).result = .ok none ∧
    (run_extension_action w0 (.obj [("name", .str "go_to_url")]) none
      ⟨200, .obj [("status", .str "success"), ("data", .str "abc")]⟩
      (some fun s => (.ok s.length : Except String Nat))).result =
      .ok (some 3) := by
  refine ⟨?_, ?_, ?_, ?_⟩
  · exact (C4_extension_action_outcomes w0 (.obj [("name", .str
      "go_to_url")]) none).1 .null none
  · exact (C4_extension_action_outcomes w0 (.obj [("name", .str
      "go_to_url")]) none).2.1 ⟨200, .obj [("status", .str "error"),
      ("error", .str "X")]⟩ ⟨"error", some "X", none⟩ none (by decide) rfl
      rfl
  · exact (C4_extension_action_outcomes w0 (.obj [("name", .str
      "go_to_url")]) none).2.2.1 ⟨200, .obj [("status", .str "success")]⟩
      ⟨"success", none, none⟩ (by decide) rfl rfl
  · exact (C4_extension_action_outcomes w0 (.obj [("name", .str
      "go_to_url")]) none).2.2.2 ⟨200, .obj [("status", .str "success"),
      ("data", .str "abc")]⟩ ⟨"success", none, some "abc"⟩ _ "abc" 3
      (by decide) rfl rfl rfl rfl

/-- C3: the claim's closed outcome set is violated by the code itself.  When
the extension-missing racer's own Playwright wait times out (its task
completes with result `None`) and `asyncio.wait` returns with only that task
in the `done` set, the `for` loop matches no branch and the waiter reaches
`assert_never()`, raising a bare `AssertionError` — an outcome outside the
closed set {ready, unsupported-browser, extension-missing,
extension-unauthenticated, initialization-error, timeout}, in a schedule
where the claim (and the code's own unreachability assertion) demand the
timeout outcome. -/
theorem C3_assert_never_reachable :
    wait_for_browser_window_id_silently [(.extensionMissing, .timedOut)] =
      .assertionError := by
  rfl

/-- C6: the claim fails on the code.  The ready branch guards only against
`text_content()` returning `None` (`if browser_window_id is None`), but for
an attached element the DOM `textContent` is always a string, so empty
content arrives as `""`, passes the `is None` check, and the waiter returns
`""` as the browser-window id — exactly the empty id the claim says can
never be returned.  The initialization error fires only in the `None` case,
which an attached element never produces, even though the code's own error
message ("Browser window ID is empty") and the spec make the intent of
rejecting empty content clear. -/
theorem C6_empty_window_id_returned :
    wait_for_browser_window_id_silently
      [(.windowId, .attached ⟨some ""⟩)] = .ready "" ∧
    wait_for_browser_window_id_silently
      [(.windowId, .attached ⟨none⟩)] =
      .initializationError "Browser window ID is empty" := by
  exact ⟨rfl, rfl⟩

/-- C7 counterexample: the claim says every exception a predicate throws
while being polled is treated as "not yet resolved" and never propagates to
the waiter's caller, but `_wait_for_selector_attached` catches only the
Playwright timeout error: a completed racer whose check raised any other
exception makes `task.result()` re-raise it out of the waiter, aborting the
race. -/
theorem C7_counterexample :
    wait_for_browser_window_id_silently
      [(.unsupportedBrowser, .raised "Target page has been closed")] =
      .raised "Target page has been closed" := by
  rfl

/-- C7 as amended: only a predicate failing with the Playwright timeout
error is treated as "not yet resolved" — its racer returns `None`, and such
a completed indicator racer is passed over without aborting the race — while
any other exception thrown by a predicate propagates out of the waiter. -/
theorem C7_only_timeout_swallowed (t : MarkerIdx × SelectorWait)
    (rest : List (MarkerIdx × SelectorWait)) (e : String)
    (hskip : taskSkips t = true) :
    wait_for_selector_attached .timedOut = .ok none ∧
    processDone (t :: rest) = processDone rest ∧
    (∀ e2, wait_for_selector_attached (.raised e2) = .error e2) ∧
    (∀ idx, processDone ((idx, .raised e) :: rest) = .raised e) := by
  refine ⟨rfl, processDone_skip t rest hskip, fun e2 => rfl, fun idx => ?_⟩
  cases idx <;> rfl

/-- Instance of C7 as amended: a timed-out unsupported-browser racer is
skipped, and a racer that raised `"boom"` propagates `"boom"`. -/
theorem C7_witness :
    wait_for_selector_attached .timedOut = .ok none ∧
    processDone [(.unsupportedBrowser, .timedOut)] = processDone [] ∧
    (∀ e2, wait_for_selector_attached (.raised e2) = .error e2) ∧
    (∀ idx, processDone [(idx, .raised "boom")] = .raised "boom") := by
  exact C7_only_timeout_swallowed (.unsupportedBrowser, .timedOut) [] "boom"
    (by decide)

/-- C8: serializing the agentic-selector action
`{type: "select_option_by_index", value: 2}` produces exactly the wire form
`{"type": "selectOptionByIndex", "value": 2}`, and the agentic-selector
response parser accepts any server data in the declared response shape
(`{value: string or null}`) without loss. -/
theorem C8_agentic_selector_round_trip :
    dump_agentic_selector_action (.select_option_by_index 2) =
      .obj [("type", .str "selectOptionByIndex"), ("value", .int 2)] ∧
    ∀ v : Option String,
      agenticSelectorResponse_validate (.obj [("value", jsonOfOptionStr v)]) =
        some ⟨v⟩ := by
  refine ⟨rfl, fun v => ?_⟩
  cases v <;> rfl

/-- C9: the `browser_window_id` assigned at construction is immutable —
`dispatch_request`, `agent`, `upload_file` and `_run_extension_action` all
leave the window state unchanged — and every dispatch submission body and
extension-action body carries exactly this id as the `browserWindowId`
routing field. -/
theorem C9_browser_window_id_immutable {σ ρ : Type} (w : BaseBrowserWindowT)
    (p : DispatchParams) (schema : Option (SchemaT σ)) (t0 : Nat)
    (submit : SubmitReply) (submitDur : Nat) (env : Nat → PollStep)
    (prompt : String) (ag : AgentArg) (cc gg : Option Bool)
    (att : Option Json) (tz : String) (vars : Option Json) (tmo : Nat)
    (actionDump : Json) (extTimeout : Option Nat) (reply : ExtHttpReply)
    (respModel : Option (String → Except String ρ))
    (presigned : PresignedPostT) :
    (dispatch_request w p schema t0 submit submitDur env).window_after = w ∧
    List.lookup "browserWindowId"
      (dispatch_request w p schema t0 submit submitDur env).body =
      some (.str w.browser_window_id) ∧
    (agentCall w prompt ag cc gg schema att tz vars tmo t0 submit submitDur
      env).1 = w ∧
    (upload_file w presigned).1 = w ∧
    (run_extension_action w actionDump extTimeout reply
      respModel).window_after = w ∧
    List.lookup "browserWindowId"
      (run_extension_action w actionDump extTimeout reply respModel).body =
      some (.str w.browser_window_id) := by
  exact ⟨rfl, rfl, rfl, rfl, rfl, rfl⟩

end Narada
